import Mathlib

/- Verification of the schema-definition compiler in src/scaffolder.py:
   identifier sanitizer, type resolver, table model builder and DDL compiler.
   Python strings are modelled over lists of characters; the regex word class
   is modelled on its ASCII range (letters, digits, underscore), which covers
   every dictionary input in scope. -/

namespace Scaffolder

/- Models of the Python string primitives used by the source. -/

def pyStrip (p : Char → Bool) (l : List Char) : List Char :=
  ((l.dropWhile p).reverse.dropWhile p).reverse

/-- Model of str.strip() with no argument: drop whitespace at both ends. -/
def pyTrim (s : String) : String :=
  String.mk (pyStrip Char.isWhitespace s.data)

/-- Model of str.lower(). -/
def pyLower (s : String) : String :=
  String.mk (s.data.map Char.toLower)

/-- Model of str.upper(). -/
def pyUpper (s : String) : String :=
  String.mk (s.data.map Char.toUpper)

/-- The characters stripped from both ends in sanitize_identifier:
    double quote, backtick, square brackets and whitespace. -/
def isStripChar (c : Char) : Bool :=
  c == '\x22' || c == '\x60' || c == '[' || c == ']' ||
  c == ' ' || c == '\t' || c == '\n' || c == '\r'

/-- The regex word class (ASCII range). -/
def isWordChar (c : Char) : Bool :=
  c.isAlphanum || c == '_'

/-- The allow-list of the sanitizer: word characters plus slash, period, hyphen. -/
def isAllowedChar (c : Char) : Bool :=
  isWordChar c || c == '/' || c == '.' || c == '-'

/-- DB_CONFIG.get(db_type, ...).get(max_identifier, 64). -/
def maxIdentifier (dbType : String) : Nat :=
  if dbType = "mssql" then 128
  else if dbType = "mysql" then 64
  else if dbType = "postgresql" then 63
  else 64

/-- sanitize_identifier from src/scaffolder.py lines 201-221. -/
def sanitize_identifier (identifier : String) (dbType : String) : String :=
  let stripped := pyStrip isStripChar identifier.data
  let clean := stripped.filter isAllowedChar
  String.mk (clean.take (maxIdentifier dbType))

/- The table model builder (CSVProcessor.process_tables). -/

/-- One data-dictionary row, with the raw cell contents of the columns the
    builder reads: Table Name, Field Name, Datatype, Length, Decimal Places,
    Key, Enforce, Partition Column. -/
structure Row where
  tableName : String
  fieldName : String
  datatype : String
  length : String
  decimals : String
  key : String
  enforce : String
  partitionCol : String
deriving DecidableEq

structure Column where
  field : String
  type : String
  enforce : Bool
deriving DecidableEq

structure TableData where
  columns : List Column
  keys : List String
  partition : Option String
  partition_type : Option String
deriving DecidableEq

def emptyTableData : TableData := ⟨[], [], none, none⟩

/-- The tables dictionary; a Python dict is insertion ordered, so it is
    modelled as an association list to which new keys are appended. -/
abbrev Tables := List (String × TableData)

def sanitizedTableName (r : Row) : String :=
  sanitize_identifier (pyLower (pyTrim r.tableName)) "generic"

def sanitizedFieldName (r : Row) : String :=
  sanitize_identifier (pyTrim r.fieldName) "generic"

def rowDtype (r : Row) : String := pyLower (pyTrim r.datatype)

/-- type_map.get(dtype, ...) with default empty string. -/
def lookupType (typeMap : List (String × String)) (dtype : String) : String :=
  (typeMap.lookup dtype).getD ""

/-- mapped.split(...)[0].strip().lower(): the part before the first opening
    parenthesis, trimmed and lower-cased. -/
def baseTypeOf (mapped : String) : String :=
  pyLower (pyTrim (String.mk (mapped.data.takeWhile (fun c => c != '('))))

def parameterizedTypes : List String := ["nvarchar", "varchar", "char", "decimal", "numeric"]

/-- Lines 382-405 of src/scaffolder.py: look up the logical type, keep only the
    base keyword, and build the SQL type from the parameters of the row.
    Every parameterized family requires length; decimal and numeric also
    require decimals. -/
def resolveSqlType (typeMap : List (String × String))
    (dtype length decimals fieldName : String) : Except String String :=
  let base := baseTypeOf (lookupType typeMap dtype)
  if base = "" then .error ("Undefined type: " ++ dtype)
  else if base ∈ parameterizedTypes then
    if length = "" then .error ("Missing length for " ++ fieldName)
    else if (base = "decimal" ∨ base = "numeric") ∧ decimals = "" then
      .error ("Missing decimals for " ++ fieldName)
    else
      .ok (base ++ "(" ++ length ++
        (if base = "decimal" ∨ base = "numeric" then "," ++ decimals else "") ++ ")")
  else .ok base

/-- In-place mutation of one entry of the dict, keeping its position. -/
def updateTable (tables : Tables) (name : String) (f : TableData → TableData) : Tables :=
  tables.map (fun p => if p.1 = name then (p.1, f p.2) else p)

/-- The truthiness test on tables(name).partition: a recorded non-empty
    partition field name. -/
def partitionOf (tables : Tables) (name : String) : String :=
  match tables.lookup name with
  | some d => d.partition.getD ""
  | none => ""

/-- One iteration of the row loop of process_tables (lines 356-439). -/
def processRow (typeMap : List (String × String)) (tables : Tables) (r : Row) :
    Except String Tables :=
  let table_name := sanitizedTableName r
  let field_name := sanitizedFieldName r
  let dtype := rowDtype r
  let length := pyTrim r.length
  let decimals := pyTrim r.decimals
  let is_key := pyUpper (pyTrim r.key) == "X"
  let is_partition := pyUpper (pyTrim r.partitionCol) == "X"
  if table_name = "" then .ok tables
  else
    let tables1 := if (tables.lookup table_name).isSome then tables
      else tables ++ [(table_name, emptyTableData)]
    let base_type := baseTypeOf (lookupType typeMap dtype)
    match resolveSqlType typeMap dtype length decimals field_name with
    | .error e => .error e
    | .ok sql_type =>
      let enforce := pyUpper (pyTrim r.enforce) == "X"
      let tables2 := updateTable tables1 table_name
        (fun d => { d with columns := d.columns ++ [⟨field_name, sql_type, enforce⟩] })
      let tables3 := if is_key then
          updateTable tables2 table_name (fun d => { d with keys := d.keys ++ [field_name] })
        else tables2
      if is_partition then
        if partitionOf tables3 table_name ≠ "" then
          .error ("Multiple partitions in " ++ table_name)
        else
          .ok (updateTable tables3 table_name
            (fun d => { d with partition := some field_name, partition_type := some base_type }))
      else .ok tables3

def processTablesAux (typeMap : List (String × String)) :
    List Row → Tables → Except String Tables
  | [], tables => .ok tables
  | r :: rs, tables =>
    match processRow typeMap tables r with
    | .error e => .error e
    | .ok tables2 => processTablesAux typeMap rs tables2

/-- CSVProcessor.process_tables: the left-to-right fold over the rows. -/
def process_tables (rows : List Row) (typeMap : List (String × String)) :
    Except String Tables :=
  processTablesAux typeMap rows []

/- The SQL generator (class SQLGenerator). -/

structure ProjectConfig where
  project_name : String
  database : Option String
  database_name : String
  source_system : String
  medallion_layers : List String
  mssql_go : Bool
  python_env : String
  git_init : Bool
  docker : Bool

/-- SQLGenerator.quote-helper: sanitize then wrap in the dialect quoting. -/
def quoteIdent (database : Option String) (identifier : String) : String :=
  let db := database.getD ""
  let clean := sanitize_identifier identifier db
  if db = "mssql" then "[" ++ clean ++ "]"
  else if db = "mysql" then "\x60" ++ clean ++ "\x60"
  else if db = "postgresql" then "\x22" ++ clean ++ "\x22"
  else clean

/-- str.replace with a one-character pattern. -/
def replaceAllChar (s : String) (c : Char) (rep : List Char) : String :=
  String.mk (s.data.foldr (fun x acc => (if x == c then rep else [x]) ++ acc) [])

/-- SQLGenerator escape helper: allow-list filter, quote doubling, percent
    doubling for postgresql, wrapped in single quotes. -/
def escape_string (database : Option String) (value : String) : String :=
  let clean := String.mk ((pyTrim value).data.filter isAllowedChar)
  let escaped := replaceAllChar clean '\x27' ['\x27', '\x27']
  let escaped := if database = some "postgresql" then replaceAllChar escaped '%' ['%', '%']
    else escaped
  "\x27" ++ escaped ++ "\x27"

/-- DB_CONFIG surrogate_key template instantiated at the quoted name. -/
def surrogate_key_sql (db : String) (quoted : String) : String :=
  if db = "mssql" then quoted ++ " INT IDENTITY(1,1) NOT NULL"
  else if db = "mysql" then quoted ++ " INT AUTO_INCREMENT NOT NULL"
  else if db = "postgresql" then quoted ++ " SERIAL NOT NULL"
  else ""

/-- DB_CONFIG ingested_at column. -/
def ingested_at_sql (db : String) : String :=
  if db = "mssql" then "DWH_INGESTED_AT DATETIME2 DEFAULT SYSDATETIME()"
  else if db = "mysql" then "DWH_INGESTED_AT TIMESTAMP(6) DEFAULT CURRENT_TIMESTAMP(6)"
  else if db = "postgresql" then "DWH_INGESTED_AT TIMESTAMPTZ DEFAULT CURRENT_TIMESTAMP"
  else ""

/-- DB_CONFIG create_db statement sequence. -/
def create_db_sql (db : String) (quotedDb : String) : List String :=
  if db = "mssql" then
    ["USE master", "DROP DATABASE IF EXISTS " ++ quotedDb,
     "CREATE DATABASE " ++ quotedDb, "USE " ++ quotedDb]
  else if db = "mysql" then
    ["DROP DATABASE IF EXISTS " ++ quotedDb, "CREATE DATABASE " ++ quotedDb,
     "USE " ++ quotedDb]
  else if db = "postgresql" then
    ["DROP DATABASE IF EXISTS " ++ quotedDb, "CREATE DATABASE " ++ quotedDb]
  else []

/-- DB_CONFIG schema drop template. -/
def schema_drop_sql (db : String) (quotedSchema : String) : String :=
  if db = "mssql" then
    "IF EXISTS (SELECT * FROM sys.schemas WHERE name = \x27" ++ quotedSchema ++
      "\x27) DROP SCHEMA " ++ quotedSchema ++ ";"
  else if db = "mysql" then "DROP SCHEMA IF EXISTS " ++ quotedSchema ++ ";"
  else if db = "postgresql" then "DROP SCHEMA IF EXISTS " ++ quotedSchema ++ " CASCADE;"
  else ""

/-- DB_CONFIG schema create template. -/
def schema_create_sql (db : String) (quotedSchema : String) : String :=
  if db = "mssql" then "CREATE SCHEMA " ++ quotedSchema ++ ";"
  else if db = "mysql" then "CREATE SCHEMA IF NOT EXISTS " ++ quotedSchema ++ ";"
  else if db = "postgresql" then "CREATE SCHEMA IF NOT EXISTS " ++ quotedSchema ++ ";"
  else ""

/-- The column definition built in the loop of _table_commands: quoted field,
    resolved type, NOT NULL when the enforce flag is set. -/
def colDefSql (database : Option String) (col : Column) : String :=
  let quoted_col := quoteIdent database col.field
  let col_def := quoted_col ++ " " ++ col.type
  if col.enforce then col_def ++ " NOT NULL" else col_def

/-- The composite primary-key clause over the quoted key names. -/
def pkClauseSql (database : Option String) (keys : List String) : String :=
  "PRIMARY KEY (" ++ String.intercalate ", " (keys.map (quoteIdent database)) ++ ")"

/-- The column list of one CREATE TABLE, exactly as accumulated by
    _table_commands (lines 535-558). -/
def build_columns (database : Option String) (source_system table : String)
    (data : TableData) : List String :=
  let db := database.getD ""
  let columns := [surrogate_key_sql db (quoteIdent database (table ++ "_id"))]
  let columns := data.columns.foldl (fun acc col => acc ++ [colDefSql database col]) columns
  let columns := columns ++
    ["DWH_RECORD_ID VARCHAR(255) NOT NULL",
     "DWH_JOB_RECORD_ID VARCHAR(255) NOT NULL",
     "DWH_SOURCE_SYSTEM VARCHAR(255) DEFAULT " ++ escape_string database source_system ++
       " NOT NULL",
     "DWH_SOURCE_TABLE VARCHAR(255) DEFAULT " ++ escape_string database table ++ " NOT NULL",
     ingested_at_sql db]
  if data.keys = [] then columns else columns ++ [pkClauseSql database data.keys]

def fullTableName (database : Option String) (layer table : String) : String :=
  quoteIdent database layer ++ "." ++ quoteIdent database table

def dropTableSql (database : Option String) (full_name : String) : String :=
  if database = some "mssql" then
    "IF OBJECT_ID(\x27" ++ full_name ++ "\x27, \x27U\x27) IS NOT NULL DROP TABLE " ++
      full_name ++ ";"
  else "DROP TABLE IF EXISTS " ++ full_name ++ ";"

def createTableSql (database : Option String) (source_system layer table : String)
    (data : TableData) : String :=
  "CREATE TABLE " ++ fullTableName database layer table ++ " (\n    " ++
    String.intercalate ",\n    " (build_columns database source_system table data) ++ "\n)"

/-- _table_commands: drop-create pair per table, in dict order. -/
def table_commands (database : Option String) (source_system layer : String)
    (tables : Tables) : List String :=
  tables.foldl (fun commands td =>
    commands ++ [dropTableSql database (fullTableName database layer td.1),
                 createTableSql database source_system layer td.1 td.2]) []

def database_commands (database : Option String) (database_name : String) : List String :=
  create_db_sql (database.getD "") (quoteIdent database database_name)

def schema_commands (database : Option String) (layer : String) : List String :=
  [schema_drop_sql (database.getD "") (quoteIdent database layer),
   schema_create_sql (database.getD "") (quoteIdent database layer)]

/-- _format_commands: batch separator joining for mssql_go, terminator style
    otherwise. -/
def format_commands (mssql_go : Bool) (commands : List String) : String :=
  if mssql_go then String.intercalate "\nGO\n" commands ++ "\nGO"
  else String.intercalate ";\n" commands ++ ";"

/-- Insertion into the ddl dict: replace in place when the key exists,
    append otherwise. -/
def dict_insert (l : List (String × String)) (k v : String) : List (String × String) :=
  if (l.lookup k).isSome then l.map (fun p => if p.1 = k then (p.1, v) else p)
  else l ++ [(k, v)]

/-- SQLGenerator.generate_ddl (lines 488-509): empty when no database is
    selected, otherwise one file per layer. -/
def generate_ddl (cfg : ProjectConfig) (tables : Tables) : List (String × String) :=
  if cfg.database.getD "" = "" then []
  else
    cfg.medallion_layers.foldl (fun ddl layer =>
      let commands :=
        database_commands cfg.database cfg.database_name ++
        schema_commands cfg.database layer ++
        table_commands cfg.database cfg.source_system layer tables
      dict_insert ddl (layer ++ ".sql") (format_commands cfg.mssql_go commands)) []

/-- The core pipeline of _generate_project_files: the table model is built
    first and any failure aborts before any DDL is produced. -/
def generateProjectDDL (cfg : ProjectConfig) (rows : List Row)
    (typeMap : List (String × String)) : Except String (List (String × String)) :=
  match process_tables rows typeMap with
  | .error e => .error e
  | .ok tables => .ok (generate_ddl cfg tables)

/-- Spec-side description (spec section 8): first-seen order of the sanitized
    table names, blank names skipped. -/
def tableOrderStep (seen : List String) (r : Row) : List String :=
  let t := sanitizedTableName r
  if t = "" then seen else if t ∈ seen then seen else seen ++ [t]

/-- Spec-side description of the expected table order of the emitted DDL. -/
def firstSeenTableOrder (rows : List Row) : List String :=
  rows.foldl tableOrderStep []

/-- Recognizes a primary-key clause: the string starts with the PRIMARY KEY
    keyword pair. -/
def isPKClause (s : String) : Bool :=
  decide (s.data.take 11 = "PRIMARY KEY".data)

/- Helper lemmas about the sanitizer. -/

lemma mem_sanitize_allowed {c : Char} {s db : String}
    (h : c ∈ (sanitize_identifier s db).data) : isAllowedChar c = true := by
  have h' : c ∈ ((pyStrip isStripChar s.data).filter isAllowedChar).take (maxIdentifier db) := h
  exact (List.mem_filter.mp (List.take_subset _ _ h')).2

lemma allowedChar_props {c : Char} (h : isAllowedChar c = true) :
    c.isAlphanum = true ∨ c = '_' ∨ c = '/' ∨ c = '.' ∨ c = '-' := by
  simp only [isAllowedChar, isWordChar, Bool.or_eq_true, beq_iff_eq] at h
  tauto

lemma allowedChar_not {c : Char} (h : isAllowedChar c = true) :
    c ≠ '\x27' ∧ c ≠ '\x22' ∧ c ≠ ';' ∧ c.isWhitespace = false := by
  refine ⟨?_, ?_, ?_, ?_⟩
  · rintro rfl; exact absurd h (by decide)
  · rintro rfl; exact absurd h (by decide)
  · rintro rfl; exact absurd h (by decide)
  · cases hw : c.isWhitespace with
    | false => rfl
    | true =>
      exfalso
      have hcase : c = ' ' ∨ c = '\t' ∨ c = '\r' ∨ c = '\n' := by
        simpa [Char.isWhitespace, Bool.or_eq_true, or_assoc] using hw
      rcases hcase with rfl | rfl | rfl | rfl <;> exact absurd h (by decide)

lemma allowed_not_strip {c : Char} (h : isAllowedChar c = true) : isStripChar c = false := by
  cases hs : isStripChar c with
  | false => rfl
  | true =>
    exfalso
    have hcase : c = '\x22' ∨ c = '\x60' ∨ c = '[' ∨ c = ']' ∨
        c = ' ' ∨ c = '\t' ∨ c = '\n' ∨ c = '\r' := by
      simpa [isStripChar, Bool.or_eq_true, beq_iff_eq, or_assoc] using hs
    rcases hcase with rfl | rfl | rfl | rfl | rfl | rfl | rfl | rfl <;> exact absurd h (by decide)

lemma pyStrip_eq_self {p : Char → Bool} {l : List Char} (h : ∀ c ∈ l, p c = false) :
    pyStrip p l = l := by
  have d1 : l.dropWhile p = l := by
    cases l with
    | nil => rfl
    | cons a t => simp [List.dropWhile_cons, h a (List.mem_cons_self a t)]
  unfold pyStrip
  rw [d1]
  have d2 : l.reverse.dropWhile p = l.reverse := by
    cases hr : l.reverse with
    | nil => rfl
    | cons a t =>
      have ha : p a = false := h a (by rw [← List.mem_reverse, hr]; exact List.mem_cons_self a t)
      simp [List.dropWhile_cons, ha]
  rw [d2, List.reverse_reverse]

/-- Claim C1: for every input string and dialect, sanitize_identifier is total,
    its result holds only letters, digits, underscore, slash, period or hyphen
    (so no quote, semicolon or whitespace character survives, in particular for
    inputs holding a DROP TABLE injection), and its length is bounded by the
    dialect maximum: 128 for mssql, 64 for mysql, 63 for postgresql and 64 for
    any other dialect key. -/
theorem sanitize_identifier_safe (s db : String) :
    (sanitize_identifier s db).length ≤ maxIdentifier db ∧
    ∀ c ∈ (sanitize_identifier s db).data,
      (c.isAlphanum = true ∨ c = '_' ∨ c = '/' ∨ c = '.' ∨ c = '-') ∧
      c ≠ '\x27' ∧ c ≠ '\x22' ∧ c ≠ ';' ∧ c.isWhitespace = false := by
  constructor
  · show (((pyStrip isStripChar s.data).filter isAllowedChar).take (maxIdentifier db)).length ≤ _
    rw [List.length_take]
    exact min_le_left _ _
  · intro c hc
    have h := mem_sanitize_allowed hc
    exact ⟨allowedChar_props h, allowedChar_not h⟩

theorem sanitize_identifier_safe_witness :
    (sanitize_identifier "cust; DROP TABLE users--" "mssql").length ≤ maxIdentifier "mssql" ∧
    (('c' : Char).isAlphanum = true ∨ 'c' = '_' ∨ 'c' = '/' ∨ 'c' = '.' ∨ 'c' = '-') ∧
    'c' ≠ '\x27' ∧ 'c' ≠ '\x22' ∧ 'c' ≠ ';' ∧ ('c' : Char).isWhitespace = false := by
  have h := sanitize_identifier_safe "cust; DROP TABLE users--" "mssql"
  exact ⟨h.1, h.2 'c' (by decide)⟩

/-- Claim C8: sanitize_identifier is idempotent for every input string and
    dialect. -/
theorem sanitize_identifier_idempotent (s db : String) :
    sanitize_identifier (sanitize_identifier s db) db = sanitize_identifier s db := by
  have hall : ∀ c ∈ (sanitize_identifier s db).data, isAllowedChar c = true :=
    fun c hc => mem_sanitize_allowed hc
  have hstrip : ∀ c ∈ (sanitize_identifier s db).data, isStripChar c = false :=
    fun c hc => allowed_not_strip (hall c hc)
  have hlen : (sanitize_identifier s db).data.length ≤ maxIdentifier db := by
    show (((pyStrip isStripChar s.data).filter isAllowedChar).take (maxIdentifier db)).length ≤ _
    rw [List.length_take]
    exact min_le_left _ _
  show String.mk ((((sanitize_identifier s db).data.dropWhile isStripChar).reverse.dropWhile
      isStripChar).reverse.filter isAllowedChar |>.take (maxIdentifier db)) = _
  rw [show (((sanitize_identifier s db).data.dropWhile isStripChar).reverse.dropWhile
      isStripChar).reverse = pyStrip isStripChar (sanitize_identifier s db).data from rfl]
  rw [pyStrip_eq_self hstrip, List.filter_eq_self.mpr hall, List.take_of_length_le hlen]

/- Helper lemmas about the table dictionary. -/

lemma lookup_isSome_iff (l : Tables) (k : String) :
    (l.lookup k).isSome ↔ k ∈ l.map Prod.fst := by
  induction l with
  | nil => simp [List.lookup]
  | cons p t ih =>
    rcases p with ⟨a, b⟩
    by_cases h : k = a
    · subst h
      simp [List.lookup]
    · simp [List.lookup, h, ih, beq_false_of_ne h]

lemma updateTable_map_fst (l : Tables) (k : String) (f : TableData → TableData) :
    (updateTable l k f).map Prod.fst = l.map Prod.fst := by
  induction l with
  | nil => rfl
  | cons p t ih =>
    rcases p with ⟨a, b⟩
    simp only [updateTable, List.map_cons] at ih ⊢
    by_cases h : a = k <;> simp [h, ih]

lemma updateTable_lookup_self (l : Tables) (k : String) (f : TableData → TableData) :
    (updateTable l k f).lookup k = (l.lookup k).map f := by
  induction l with
  | nil => rfl
  | cons p t ih =>
    rcases p with ⟨a, b⟩
    by_cases h : a = k
    · subst h
      have hp : (fun p : String × TableData => if p.1 = a then (p.1, f p.2) else p) (a, b)
          = (a, f b) := by simp
      simp only [updateTable, List.map_cons, hp]
      simp [List.lookup]
    · have hp : (fun p : String × TableData => if p.1 = k then (p.1, f p.2) else p) (a, b)
          = (a, b) := by simp [h]
      simp only [updateTable, List.map_cons, hp]
      simp only [updateTable] at ih
      simp [List.lookup, beq_false_of_ne (Ne.symm h), ih]

lemma processTablesAux_append (m : List (String × String)) (l₁ l₂ : List Row) (st : Tables) :
    processTablesAux m (l₁ ++ l₂) st =
      match processTablesAux m l₁ st with
      | .error e => .error e
      | .ok st2 => processTablesAux m l₂ st2 := by
  induction l₁ generalizing st with
  | nil => simp [processTablesAux]
  | cons r rs ih =>
    simp only [List.cons_append, processTablesAux]
    cases processRow m st r with
    | error e => rfl
    | ok st2 => exact ih st2

lemma processRow_blank {m : List (String × String)} {st : Tables} {r : Row}
    (h : sanitizedTableName r = "") : processRow m st r = .ok st := by
  simp [processRow, h]

lemma baseTypeOf_empty : baseTypeOf "" = "" := rfl

lemma resolveSqlType_unknown {m : List (String × String)} {dtype len dec field : String}
    (h : m.lookup dtype = none) :
    resolveSqlType m dtype len dec field = .error ("Undefined type: " ++ dtype) := by
  simp [resolveSqlType, lookupType, h, baseTypeOf_empty]

lemma processRow_unknown {m : List (String × String)} {st : Tables} {r : Row}
    (ht : sanitizedTableName r ≠ "")
    (hm : m.lookup (rowDtype r) = none) :
    processRow m st r = .error ("Undefined type: " ++ rowDtype r) := by
  simp only [processRow, if_neg ht]
  rw [resolveSqlType_unknown hm]

/-- Claim C3: for a logical type mapped to a parameterized base kind, the
    resolved type is built from the parameters of the row, whatever parameter
    fragment the mapping value embeds after the opening parenthesis; decimal
    and numeric with blank decimals fail with the missing-decimals error
    naming the field, and any of the five kinds with blank length fails with
    the missing-length error naming the field. -/
theorem resolve_parameterized_types (m : List (String × String))
    (dtype len dec field v : String) (hv : m.lookup dtype = some v) :
    (baseTypeOf v ∈ parameterizedTypes → len = "" →
      resolveSqlType m dtype len dec field = .error ("Missing length for " ++ field)) ∧
    ((baseTypeOf v = "decimal" ∨ baseTypeOf v = "numeric") → len ≠ "" → dec = "" →
      resolveSqlType m dtype len dec field = .error ("Missing decimals for " ++ field)) ∧
    ((baseTypeOf v = "decimal" ∨ baseTypeOf v = "numeric") → len ≠ "" → dec ≠ "" →
      resolveSqlType m dtype len dec field = .ok (baseTypeOf v ++ "(" ++ len ++ "," ++ dec ++ ")")) ∧
    ((baseTypeOf v = "nvarchar" ∨ baseTypeOf v = "varchar" ∨ baseTypeOf v = "char") → len ≠ "" →
      resolveSqlType m dtype len dec field = .ok (baseTypeOf v ++ "(" ++ len ++ ")")) := by
  have hlt : lookupType m dtype = v := by simp [lookupType, hv]
  refine ⟨?_, ?_, ?_, ?_⟩
  · intro hmem hlen
    have hb : baseTypeOf v ≠ "" := by
      simp only [parameterizedTypes, List.mem_cons, List.mem_singleton] at hmem
      rcases hmem with h | h | h | h | (h | hfalse) <;> first
        | (rw [h]; decide)
        | simp at hfalse
    simp [resolveSqlType, hlt, hb, hmem, hlen]
  · intro hdn hlen hdec
    have hmem : baseTypeOf v ∈ parameterizedTypes := by
      rcases hdn with h | h <;> rw [h] <;> decide
    have hb : baseTypeOf v ≠ "" := by rcases hdn with h | h <;> rw [h] <;> decide
    simp [resolveSqlType, hlt, hb, hmem, hlen, hdn, hdec]
  · intro hdn hlen hdec
    have hmem : baseTypeOf v ∈ parameterizedTypes := by
      rcases hdn with h | h <;> rw [h] <;> decide
    have hb : baseTypeOf v ≠ "" := by rcases hdn with h | h <;> rw [h] <;> decide
    simp [resolveSqlType, hlt, hb, hmem, hlen, hdn, hdec, String.append_assoc]
  · intro hvc hlen
    have hmem : baseTypeOf v ∈ parameterizedTypes := by
      rcases hvc with h | h | h <;> rw [h] <;> decide
    have hb : baseTypeOf v ≠ "" := by rcases hvc with h | h | h <;> rw [h] <;> decide
    have hdn : ¬(baseTypeOf v = "decimal" ∨ baseTypeOf v = "numeric") := by
      rcases hvc with h | h | h <;> rw [h] <;> decide
    simp [resolveSqlType, hlt, hb, hmem, hlen, hdn, String.append_assoc]

theorem resolve_parameterized_types_witness :
    (baseTypeOf "decimal(8,3)" ∈ parameterizedTypes → "10" = "" →
      resolveSqlType [("money", "decimal(8,3)")] "money" "10" "2" "amount" =
        .error ("Missing length for " ++ "amount")) ∧
    ((baseTypeOf "decimal(8,3)" = "decimal" ∨ baseTypeOf "decimal(8,3)" = "numeric") →
      "10" ≠ "" → "2" = "" →
      resolveSqlType [("money", "decimal(8,3)")] "money" "10" "2" "amount" =
        .error ("Missing decimals for " ++ "amount")) ∧
    ((baseTypeOf "decimal(8,3)" = "decimal" ∨ baseTypeOf "decimal(8,3)" = "numeric") →
      "10" ≠ "" → "2" ≠ "" →
      resolveSqlType [("money", "decimal(8,3)")] "money" "10" "2" "amount" =
        .ok (baseTypeOf "decimal(8,3)" ++ "(" ++ "10" ++ "," ++ "2" ++ ")")) ∧
    ((baseTypeOf "decimal(8,3)" = "nvarchar" ∨ baseTypeOf "decimal(8,3)" = "varchar" ∨
      baseTypeOf "decimal(8,3)" = "char") → "10" ≠ "" →
      resolveSqlType [("money", "decimal(8,3)")] "money" "10" "2" "amount" =
        .ok (baseTypeOf "decimal(8,3)" ++ "(" ++ "10" ++ ")")) :=
  resolve_parameterized_types [("money", "decimal(8,3)")] "money" "10" "2" "amount"
    "decimal(8,3)" (by decide)

/-- Claim C4: a row with a non-empty sanitized table name whose logical
    datatype is absent from the type mapping makes the whole build fail with
    the unknown-type error; the pipeline then returns no per-table or
    per-layer output at all. -/
theorem process_tables_unknown_type (m : List (String × String)) (pre post : List Row)
    (r : Row) (st : Tables)
    (hpre : processTablesAux m pre [] = .ok st)
    (ht : sanitizedTableName r ≠ "")
    (hm : m.lookup (rowDtype r) = none) :
    process_tables (pre ++ r :: post) m = .error ("Undefined type: " ++ rowDtype r) ∧
    ∀ cfg : ProjectConfig,
      generateProjectDDL cfg (pre ++ r :: post) m =
        .error ("Undefined type: " ++ rowDtype r) := by
  have hmain : process_tables (pre ++ r :: post) m =
      .error ("Undefined type: " ++ rowDtype r) := by
    unfold process_tables
    rw [processTablesAux_append, hpre]
    simp [processTablesAux, processRow_unknown ht hm]
  exact ⟨hmain, fun cfg => by simp [generateProjectDDL, hmain]⟩

theorem process_tables_unknown_type_witness :
    process_tables [⟨"t", "a", "foo", "", "", "", "", ""⟩] [("int", "int")] =
      .error ("Undefined type: " ++ rowDtype ⟨"t", "a", "foo", "", "", "", "", ""⟩) ∧
    ∀ cfg : ProjectConfig,
      generateProjectDDL cfg [⟨"t", "a", "foo", "", "", "", "", ""⟩] [("int", "int")] =
        .error ("Undefined type: " ++ rowDtype ⟨"t", "a", "foo", "", "", "", "", ""⟩) :=
  process_tables_unknown_type [("int", "int")] [] []
    ⟨"t", "a", "foo", "", "", "", "", ""⟩ [] (by rfl) (by decide) (by rfl)

/-- Claim C2 counterexample: two rows of table t both set the partition flag,
    the first with a field name that sanitizes to the empty string; the build
    does not fail - the truthiness test on the recorded empty partition name
    passes and the second row silently overwrites it. -/
theorem duplicate_partition_counterexample :
    process_tables
      [⟨"t", "!!!", "int", "", "", "", "", "X"⟩, ⟨"t", "b", "int", "", "", "", "", "X"⟩]
      [("int", "int")] =
      .ok [("t", ⟨[⟨"", "int", false⟩, ⟨"b", "int", false⟩], [], some "b", some "int"⟩)] := by
  rfl

/-- Claim C5 counterexample: a row with table name t and a field name that
    sanitizes to the empty string is accepted, producing a table model with an
    empty-named column instead of a structural error. -/
theorem empty_field_counterexample :
    process_tables [⟨"t", "!!!", "int", "", "", "", "", ""⟩] [("int", "int")] =
      .ok [("t", ⟨[⟨"", "int", false⟩], [], none, none⟩)] := by
  rfl

lemma partitionOf_updateTable (l : Tables) (k : String) (f : TableData → TableData)
    (hf : ∀ dd, (f dd).partition = dd.partition) :
    partitionOf (updateTable l k f) k = partitionOf l k := by
  unfold partitionOf
  rw [updateTable_lookup_self]
  cases l.lookup k with
  | none => rfl
  | some dd => simp [hf]

lemma partitionOf_update_columns (l : Tables) (k fn ty : String) (en : Bool) :
    partitionOf (updateTable l k
      (fun d => { d with columns := d.columns ++ [⟨fn, ty, en⟩] })) k = partitionOf l k :=
  partitionOf_updateTable _ _ _ (fun _ => rfl)

lemma partitionOf_update_keys (l : Tables) (k fn : String) :
    partitionOf (updateTable l k (fun d => { d with keys := d.keys ++ [fn] })) k =
      partitionOf l k :=
  partitionOf_updateTable _ _ _ (fun _ => rfl)

lemma processRow_duplicate_partition {m : List (String × String)} {st : Tables} {r : Row}
    {d : TableData} {ty : String}
    (ht : sanitizedTableName r ≠ "")
    (hd : st.lookup (sanitizedTableName r) = some d)
    (hpart : d.partition.getD "" ≠ "")
    (hflag : pyUpper (pyTrim r.partitionCol) = "X")
    (hres : resolveSqlType m (rowDtype r) (pyTrim r.length) (pyTrim r.decimals)
      (sanitizedFieldName r) = .ok ty) :
    processRow m st r = .error ("Multiple partitions in " ++ sanitizedTableName r) := by
  have hsome : (st.lookup (sanitizedTableName r)).isSome = true := by rw [hd]; rfl
  have hstp : partitionOf st (sanitizedTableName r) ≠ "" := by
    unfold partitionOf
    rw [hd]
    exact hpart
  simp only [processRow, if_neg ht, hsome, if_true, hres, hflag, beq_self_eq_true]
  by_cases hk : (pyUpper (pyTrim r.key) == "X") = true <;>
    simp [hk, partitionOf_update_keys, partitionOf_update_columns, hstp]

/-- Claim C2 amended: when a second row sets the partition flag for a table
    whose recorded partition field name is non-empty (and the row itself
    resolves), the build fails with the duplicate-partition error naming the
    table, and no DDL is produced for any layer. -/
theorem process_tables_duplicate_partition (m : List (String × String))
    (pre post : List Row) (r : Row) (st : Tables) (d : TableData) (ty : String)
    (hpre : processTablesAux m pre [] = .ok st)
    (ht : sanitizedTableName r ≠ "")
    (hd : st.lookup (sanitizedTableName r) = some d)
    (hpart : d.partition.getD "" ≠ "")
    (hflag : pyUpper (pyTrim r.partitionCol) = "X")
    (hres : resolveSqlType m (rowDtype r) (pyTrim r.length) (pyTrim r.decimals)
      (sanitizedFieldName r) = .ok ty) :
    process_tables (pre ++ r :: post) m =
      .error ("Multiple partitions in " ++ sanitizedTableName r) ∧
    ∀ cfg : ProjectConfig, generateProjectDDL cfg (pre ++ r :: post) m =
      .error ("Multiple partitions in " ++ sanitizedTableName r) := by
  have hrow := processRow_duplicate_partition ht hd hpart hflag hres
  have hmain : process_tables (pre ++ r :: post) m =
      .error ("Multiple partitions in " ++ sanitizedTableName r) := by
    unfold process_tables
    rw [processTablesAux_append, hpre]
    simp [processTablesAux, hrow]
  exact ⟨hmain, fun cfg => by simp [generateProjectDDL, hmain]⟩

theorem process_tables_duplicate_partition_witness :
    process_tables [⟨"t", "a", "int", "", "", "", "", "X"⟩, ⟨"t", "b", "int", "", "", "", "", "X"⟩]
      [("int", "int")] =
      .error ("Multiple partitions in " ++ sanitizedTableName ⟨"t", "b", "int", "", "", "", "", "X"⟩) ∧
    ∀ cfg : ProjectConfig,
      generateProjectDDL cfg
        [⟨"t", "a", "int", "", "", "", "", "X"⟩, ⟨"t", "b", "int", "", "", "", "", "X"⟩]
        [("int", "int")] =
      .error ("Multiple partitions in " ++ sanitizedTableName ⟨"t", "b", "int", "", "", "", "", "X"⟩) :=
  process_tables_duplicate_partition [("int", "int")]
    [⟨"t", "a", "int", "", "", "", "", "X"⟩] [] ⟨"t", "b", "int", "", "", "", "", "X"⟩
    [("t", ⟨[⟨"a", "int", false⟩], [], some "a", some "int"⟩)]
    ⟨[⟨"a", "int", false⟩], [], some "a", some "int"⟩ "int"
    (by rfl) (by decide) (by rfl) (by decide) (by rfl) (by rfl)

lemma processRow_fresh {m : List (String × String)} {r : Row} {ty : String}
    (ht : sanitizedTableName r ≠ "")
    (hres : resolveSqlType m (rowDtype r) (pyTrim r.length) (pyTrim r.decimals)
      (sanitizedFieldName r) = .ok ty) :
    processRow m [] r = .ok [(sanitizedTableName r,
      { columns := [⟨sanitizedFieldName r, ty, pyUpper (pyTrim r.enforce) == "X"⟩],
        keys := if pyUpper (pyTrim r.key) == "X" then [sanitizedFieldName r] else [],
        partition := if pyUpper (pyTrim r.partitionCol) == "X" then
          some (sanitizedFieldName r) else none,
        partition_type := if pyUpper (pyTrim r.partitionCol) == "X" then
          some (baseTypeOf (lookupType m (rowDtype r))) else none })] := by
  simp only [processRow, if_neg ht, hres]
  by_cases hk : (pyUpper (pyTrim r.key) == "X") = true <;>
    by_cases hp : (pyUpper (pyTrim r.partitionCol) == "X") = true <;>
      simp [hk, hp, updateTable, emptyTableData, partitionOf, List.lookup]

/-- Claim C5 amended: a row whose table name sanitizes to a non-empty string
    and whose field name sanitizes to the empty string is not rejected: the
    build accepts it and records a column whose field name is the empty
    string (and an empty key or partition name when those flags are set). -/
theorem process_tables_empty_field_not_rejected (m : List (String × String))
    (r : Row) (ty : String)
    (ht : sanitizedTableName r ≠ "")
    (hf : sanitizedFieldName r = "")
    (hres : resolveSqlType m (rowDtype r) (pyTrim r.length) (pyTrim r.decimals) "" = .ok ty) :
    process_tables [r] m = .ok [(sanitizedTableName r,
      { columns := [⟨"", ty, pyUpper (pyTrim r.enforce) == "X"⟩],
        keys := if pyUpper (pyTrim r.key) == "X" then [""] else [],
        partition := if pyUpper (pyTrim r.partitionCol) == "X" then some "" else none,
        partition_type := if pyUpper (pyTrim r.partitionCol) == "X" then
          some (baseTypeOf (lookupType m (rowDtype r))) else none })] := by
  have hres2 : resolveSqlType m (rowDtype r) (pyTrim r.length) (pyTrim r.decimals)
      (sanitizedFieldName r) = .ok ty := by rw [hf]; exact hres
  have h := processRow_fresh ht hres2
  rw [hf] at h
  unfold process_tables
  simp [processTablesAux, h]

theorem process_tables_empty_field_not_rejected_witness :
    process_tables [⟨"t", "??", "int", "", "", "X", "", ""⟩] [("int", "int")] =
      .ok [(sanitizedTableName ⟨"t", "??", "int", "", "", "X", "", ""⟩,
        { columns := [⟨"", "int", pyUpper (pyTrim "") == "X"⟩],
          keys := if pyUpper (pyTrim "X") == "X" then [""] else [],
          partition := if pyUpper (pyTrim "") == "X" then some "" else none,
          partition_type := if pyUpper (pyTrim "") == "X" then
            some (baseTypeOf (lookupType [("int", "int")] (rowDtype ⟨"t", "??", "int", "", "", "X", "", ""⟩))) else none })] :=
  process_tables_empty_field_not_rejected [("int", "int")]
    ⟨"t", "??", "int", "", "", "X", "", ""⟩ "int" (by decide) (by decide) (by rfl)

/- Helper lemmas for the table iteration order. -/

lemma processRow_map_fst {m : List (String × String)} {st st2 : Tables} {r : Row}
    (h : processRow m st r = .ok st2) :
    st2.map Prod.fst = tableOrderStep (st.map Prod.fst) r := by
  by_cases ht : sanitizedTableName r = ""
  · rw [processRow_blank ht] at h
    simp only [Except.ok.injEq] at h
    subst h
    simp [tableOrderStep, ht]
  · have hstep : tableOrderStep (st.map Prod.fst) r =
        ((if (st.lookup (sanitizedTableName r)).isSome = true then st
          else st ++ [(sanitizedTableName r, emptyTableData)]).map Prod.fst) := by
      by_cases hsome : (st.lookup (sanitizedTableName r)).isSome = true
      · simp [tableOrderStep, ht, hsome, (lookup_isSome_iff st _).mp hsome]
      · have hnm : sanitizedTableName r ∉ st.map Prod.fst :=
          fun hmem => hsome ((lookup_isSome_iff st _).mpr hmem)
        simp [tableOrderStep, ht, hsome, hnm]
    rw [hstep]
    simp only [processRow, if_neg ht] at h
    cases hres : resolveSqlType m (rowDtype r) (pyTrim r.length) (pyTrim r.decimals)
        (sanitizedFieldName r) with
    | error e => rw [hres] at h; simp at h
    | ok ty =>
      rw [hres] at h
      by_cases hk : (pyUpper (pyTrim r.key) == "X") = true <;>
        by_cases hp : (pyUpper (pyTrim r.partitionCol) == "X") = true <;>
          simp only [hk, hp, if_true, if_false] at h
      all_goals try split at h
      all_goals try split at h
      all_goals first
        | (exact Except.noConfusion h)
        | (simp only [Except.ok.injEq] at h; subst h; simp_all [updateTable_map_fst])
        | (split at h <;> first
            | (exact Except.noConfusion h)
            | (simp only [Except.ok.injEq] at h; subst h; simp_all [updateTable_map_fst]))

lemma processTablesAux_map_fst {m : List (String × String)} :
    ∀ {rows : List Row} {st res : Tables},
      processTablesAux m rows st = .ok res →
      res.map Prod.fst = rows.foldl tableOrderStep (st.map Prod.fst)
  | [], st, res, h => by
      simp only [processTablesAux, Except.ok.injEq] at h
      subst h
      rfl
  | r :: rs, st, res, h => by
      simp only [processTablesAux] at h
      cases hrow : processRow m st r with
      | error e => rw [hrow] at h; simp at h
      | ok st2 =>
        rw [hrow] at h
        simp only [] at h
        have hrec := @processTablesAux_map_fst m rs st2 res h
        rw [hrec, List.foldl_cons, processRow_map_fst hrow]

/-- Claim C7: the tables appear in the DDL command stream of every layer in
    exactly the first-seen order of the sanitized table names of the input
    rows, and a row whose table name sanitizes to blank is skipped without
    error and contributes nothing to the model. -/
theorem emitted_table_order :
    (∀ (rows : List Row) (m : List (String × String)) (res : Tables),
      process_tables rows m = .ok res → res.map Prod.fst = firstSeenTableOrder rows) ∧
    (∀ (m : List (String × String)) (pre post : List Row) (r : Row),
      sanitizedTableName r = "" →
      process_tables (pre ++ r :: post) m = process_tables (pre ++ post) m) ∧
    (∀ (database : Option String) (source_system layer : String) (tbls : Tables),
      table_commands database source_system layer tbls =
        (tbls.map (fun td =>
          [dropTableSql database (fullTableName database layer td.1),
           createTableSql database source_system layer td.1 td.2])).flatten) := by
  refine ⟨?_, ?_, ?_⟩
  · intro rows m res h
    exact processTablesAux_map_fst h
  · intro m pre post r hblank
    unfold process_tables
    rw [processTablesAux_append, processTablesAux_append]
    cases hpre : processTablesAux m pre [] with
    | error e => rfl
    | ok st => simp [processTablesAux, processRow_blank hblank]
  · intro db ss layer tbls
    have hgen : ∀ (l : Tables) (init : List String),
        l.foldl (fun commands td =>
          commands ++ [dropTableSql db (fullTableName db layer td.1),
            createTableSql db ss layer td.1 td.2]) init =
        init ++ (l.map (fun td =>
          [dropTableSql db (fullTableName db layer td.1),
           createTableSql db ss layer td.1 td.2])).flatten := by
      intro l
      induction l with
      | nil => intro init; simp
      | cons x xs ih =>
        intro init
        simp only [List.foldl_cons, ih, List.map_cons, List.flatten_cons, List.append_assoc]
    simpa [table_commands] using hgen tbls []

theorem emitted_table_order_witness :
    ([("b", (⟨[⟨"x", "int", false⟩, ⟨"z", "int", false⟩], [], none, none⟩ : TableData)),
      ("a", (⟨[⟨"y", "int", false⟩], [], none, none⟩ : TableData))].map Prod.fst =
      firstSeenTableOrder
        [⟨"b", "x", "int", "", "", "", "", ""⟩, ⟨"a", "y", "int", "", "", "", "", ""⟩,
         ⟨"b", "z", "int", "", "", "", "", ""⟩]) ∧
    (process_tables [⟨"", "q", "int", "", "", "", "", ""⟩] [("int", "int")] =
      process_tables [] [("int", "int")]) ∧
    (table_commands (some "mysql") "src" "bronze" [("t", emptyTableData)] =
      ([("t", emptyTableData)].map (fun td =>
        [dropTableSql (some "mysql") (fullTableName (some "mysql") "bronze" td.1),
         createTableSql (some "mysql") "src" "bronze" td.1 td.2])).flatten) := by
  refine ⟨?_, ?_, ?_⟩
  · exact emitted_table_order.1
      [⟨"b", "x", "int", "", "", "", "", ""⟩, ⟨"a", "y", "int", "", "", "", "", ""⟩,
       ⟨"b", "z", "int", "", "", "", "", ""⟩]
      [("int", "int")] _ (by rfl)
  · exact emitted_table_order.2.1 [("int", "int")] [] []
      ⟨"", "q", "int", "", "", "", "", ""⟩ (by decide)
  · exact emitted_table_order.2.2 (some "mysql") "src" "bronze" [("t", emptyTableData)]

/- Helper lemmas for the CREATE TABLE column layout. -/

lemma foldl_push_colDef (db : Option String) (cols : List Column) :
    ∀ init : List String,
      cols.foldl (fun acc col => acc ++ [colDefSql db col]) init =
        init ++ cols.map (colDefSql db) := by
  induction cols with
  | nil => intro init; simp
  | cons c cs ih =>
    intro init
    simp only [List.foldl_cons, ih, List.map_cons]
    simp [List.append_assoc]

lemma isPKClause_head_ne {s : String} {c : Char} {l : List Char}
    (hs : s.data = c :: l) (hc : c ≠ 'P') : isPKClause s = false := by
  unfold isPKClause
  rw [hs]
  apply decide_eq_false
  intro heq
  have h1 : (c :: l).take 11 = c :: l.take 10 := rfl
  have h2 : ("PRIMARY KEY".data) = 'P' :: "RIMARY KEY".data := rfl
  rw [h1, h2] at heq
  injection heq with hch _
  exact hc hch

lemma isPKClause_append_of_head {a : String} {c : Char} {l : List Char}
    (ha : a.data = c :: l) (hc : c ≠ 'P') (b : String) : isPKClause (a ++ b) = false := by
  apply isPKClause_head_ne (c := c) (l := l ++ b.data) ?_ hc
  rw [String.data_append, ha]
  rfl

lemma isPKClause_pk (b : String) : isPKClause ("PRIMARY KEY (" ++ b) = true := by
  unfold isPKClause
  rw [String.data_append]
  apply decide_eq_true
  rw [List.take_append_of_le_length (by decide)]
  rfl

lemma quoteIdent_head (database : Option String) (x : String)
    (hdb : database = some "mssql" ∨ database = some "mysql" ∨ database = some "postgresql") :
    ∃ c l, (quoteIdent database x).data = c :: l ∧ c ≠ 'P' := by
  rcases hdb with h | h | h <;> subst h
  · exact ⟨'[', (sanitize_identifier x "mssql").data ++ [']'],
      by simp [quoteIdent, String.data_append], by decide⟩
  · exact ⟨'\x60', (sanitize_identifier x "mysql").data ++ ['\x60'],
      by simp [quoteIdent, String.data_append], by decide⟩
  · exact ⟨'\x22', (sanitize_identifier x "postgresql").data ++ ['\x22'],
      by simp [quoteIdent, String.data_append], by decide⟩

lemma colDefSql_decomp (db : Option String) (col : Column) :
    ∃ suf, colDefSql db col = quoteIdent db col.field ++ suf := by
  cases hcol : col.enforce
  · exact ⟨" " ++ col.type, by simp [colDefSql, hcol, String.append_assoc]⟩
  · exact ⟨" " ++ col.type ++ " NOT NULL",
      by simp [colDefSql, hcol, String.append_assoc]⟩

/-- Claim C6: the CREATE TABLE column list is, in order, the dialect surrogate
    key named after the table, then each dictionary column in row order with
    NOT NULL appended exactly when its enforce flag is set, then the four audit
    columns (record id, job record id, source system defaulting to the escaped
    configured label, source table defaulting to the escaped table name) and
    the dialect ingestion-timestamp column; when the table has at least one key
    field, exactly one PRIMARY KEY clause follows, listing all quoted key names
    in first-seen order. -/
theorem create_table_column_layout (database : Option String)
    (source_system table : String) (data : TableData)
    (hdb : database = some "mssql" ∨ database = some "mysql" ∨ database = some "postgresql") :
    (build_columns database source_system table data =
      surrogate_key_sql (database.getD "") (quoteIdent database (table ++ "_id")) ::
        data.columns.map (colDefSql database) ++
        ["DWH_RECORD_ID VARCHAR(255) NOT NULL",
         "DWH_JOB_RECORD_ID VARCHAR(255) NOT NULL",
         "DWH_SOURCE_SYSTEM VARCHAR(255) DEFAULT " ++ escape_string database source_system ++
           " NOT NULL",
         "DWH_SOURCE_TABLE VARCHAR(255) DEFAULT " ++ escape_string database table ++
           " NOT NULL",
         ingested_at_sql (database.getD "")] ++
        (if data.keys = [] then [] else [pkClauseSql database data.keys])) ∧
    (∀ col : Column, colDefSql database col =
      quoteIdent database col.field ++ " " ++ col.type ++
        (if col.enforce then " NOT NULL" else "")) ∧
    (data.keys ≠ [] →
      (build_columns database source_system table data).countP isPKClause = 1) := by
  have hlayout : build_columns database source_system table data =
      surrogate_key_sql (database.getD "") (quoteIdent database (table ++ "_id")) ::
        data.columns.map (colDefSql database) ++
        ["DWH_RECORD_ID VARCHAR(255) NOT NULL",
         "DWH_JOB_RECORD_ID VARCHAR(255) NOT NULL",
         "DWH_SOURCE_SYSTEM VARCHAR(255) DEFAULT " ++ escape_string database source_system ++
           " NOT NULL",
         "DWH_SOURCE_TABLE VARCHAR(255) DEFAULT " ++ escape_string database table ++
           " NOT NULL",
         ingested_at_sql (database.getD "")] ++
        (if data.keys = [] then [] else [pkClauseSql database data.keys]) := by
    simp only [build_columns]
    rw [foldl_push_colDef]
    by_cases hk : data.keys = [] <;> simp [hk, List.append_assoc]
  refine ⟨hlayout, fun col => ?_, fun hk => ?_⟩
  · cases hcol : col.enforce <;>
      simp [colDefSql, hcol, String.append_assoc, String.append_empty]
  · rw [hlayout]
    obtain ⟨c, l, hcl, hcP⟩ := quoteIdent_head database (table ++ "_id") hdb
    have hsk : isPKClause
        (surrogate_key_sql (database.getD "") (quoteIdent database (table ++ "_id"))) = false := by
      have hq : ∃ suf, surrogate_key_sql (database.getD "")
          (quoteIdent database (table ++ "_id")) =
          quoteIdent database (table ++ "_id") ++ suf := by
        rcases hdb with h | h | h <;> subst h <;> exact ⟨_, rfl⟩
      obtain ⟨suf, hsuf⟩ := hq
      rw [hsuf]
      exact isPKClause_append_of_head hcl hcP suf
    have hcols : (data.columns.map (colDefSql database)).countP isPKClause = 0 := by
      rw [List.countP_eq_zero]
      intro a ha
      obtain ⟨col, _, rfl⟩ := List.mem_map.mp ha
      obtain ⟨c2, l2, hcl2, hcP2⟩ := quoteIdent_head database col.field hdb
      obtain ⟨suf, hsuf⟩ := colDefSql_decomp database col
      rw [hsuf, isPKClause_append_of_head hcl2 hcP2 suf]
      simp
    have h3 : ("DWH_SOURCE_SYSTEM VARCHAR(255) DEFAULT " ++
        escape_string database source_system).data =
        'D' :: ("WH_SOURCE_SYSTEM VARCHAR(255) DEFAULT ".data ++
          (escape_string database source_system).data) := by
      rw [String.data_append]
      rfl
    have h4 : ("DWH_SOURCE_TABLE VARCHAR(255) DEFAULT " ++
        escape_string database table).data =
        'D' :: ("WH_SOURCE_TABLE VARCHAR(255) DEFAULT ".data ++
          (escape_string database table).data) := by
      rw [String.data_append]
      rfl
    have ha3 := isPKClause_append_of_head h3 (by decide) " NOT NULL"
    have ha4 := isPKClause_append_of_head h4 (by decide) " NOT NULL"
    have hing : isPKClause (ingested_at_sql (database.getD "")) = false := by
      rcases hdb with h | h | h <;> subst h <;> rfl
    have hpk : isPKClause (pkClauseSql database data.keys) = true := by
      unfold pkClauseSql
      exact isPKClause_pk _
    have ha1 : isPKClause "DWH_RECORD_ID VARCHAR(255) NOT NULL" = false := rfl
    have ha2 : isPKClause "DWH_JOB_RECORD_ID VARCHAR(255) NOT NULL" = false := rfl
    simp [hk, List.countP_cons, List.countP_append, hsk, hcols, ha1, ha2, ha3, ha4, hing,
      hpk]

theorem create_table_column_layout_witness :
    ((build_columns (some "mysql") "src" "customer"
        ⟨[⟨"id", "int", true⟩], ["id"], none, none⟩ =
      surrogate_key_sql ((some "mysql" : Option String).getD "")
          (quoteIdent (some "mysql") ("customer" ++ "_id")) ::
        [⟨"id", "int", true⟩].map (colDefSql (some "mysql")) ++
        ["DWH_RECORD_ID VARCHAR(255) NOT NULL",
         "DWH_JOB_RECORD_ID VARCHAR(255) NOT NULL",
         "DWH_SOURCE_SYSTEM VARCHAR(255) DEFAULT " ++ escape_string (some "mysql") "src" ++
           " NOT NULL",
         "DWH_SOURCE_TABLE VARCHAR(255) DEFAULT " ++ escape_string (some "mysql") "customer" ++
           " NOT NULL",
         ingested_at_sql ((some "mysql" : Option String).getD "")] ++
        (if (["id"] : List String) = [] then []
         else [pkClauseSql (some "mysql") ["id"]])) ∧
    (∀ col : Column, colDefSql (some "mysql") col =
      quoteIdent (some "mysql") col.field ++ " " ++ col.type ++
        (if col.enforce then " NOT NULL" else "")) ∧
    ((["id"] : List String) ≠ [] →
      (build_columns (some "mysql") "src" "customer"
        ⟨[⟨"id", "int", true⟩], ["id"], none, none⟩).countP isPKClause = 1)) :=
  create_table_column_layout (some "mysql") "src" "customer"
    ⟨[⟨"id", "int", true⟩], ["id"], none, none⟩ (by simp)

/-- Claim C9: for a fixed table model, the emitted DDL mapping is a
    deterministic function of exactly the configuration fields the compiler
    consumes (database kind, database name, source system, layer list, batch
    separator flag); two runs with identical such inputs produce identical
    output, whatever else differs in the configuration. -/
theorem generate_ddl_deterministic (cfg1 cfg2 : ProjectConfig) (t1 t2 : Tables)
    (hdb : cfg1.database = cfg2.database)
    (hname : cfg1.database_name = cfg2.database_name)
    (hsrc : cfg1.source_system = cfg2.source_system)
    (hlay : cfg1.medallion_layers = cfg2.medallion_layers)
    (hgo : cfg1.mssql_go = cfg2.mssql_go)
    (ht : t1 = t2) :
    generate_ddl cfg1 t1 = generate_ddl cfg2 t2 := by
  subst ht
  unfold generate_ddl
  rw [hdb, hname, hsrc, hlay, hgo]

theorem generate_ddl_deterministic_witness :
    generate_ddl ⟨"p1", some "mysql", "db", "src", ["bronze"], false, "pip", false, false⟩
      [("t", emptyTableData)] =
    generate_ddl ⟨"p2", some "mysql", "db", "src", ["bronze"], false, "conda", true, true⟩
      [("t", emptyTableData)] :=
  generate_ddl_deterministic _ _ _ _ rfl rfl rfl rfl rfl rfl

/-- Claim C10: when no database is selected, generate_ddl returns the empty
    mapping without error, whatever the tables and layers are. -/
theorem generate_ddl_no_database (cfg : ProjectConfig) (tables : Tables)
    (h : cfg.database = none) : generate_ddl cfg tables = [] := by
  simp [generate_ddl, h]

theorem generate_ddl_no_database_witness :
    generate_ddl ⟨"p", none, "db", "src", ["bronze", "silver", "gold"], false, "pip",
      false, false⟩ [("t", emptyTableData)] = [] :=
  generate_ddl_no_database _ _ rfl

end Scaffolder
